import Mathlib

/-
Verification of the `whisper_cli.py` transcription glue script.

The script's `main` is embedded as a pure function from
  - a `Config` (the environment after `load_dotenv`: HF_TOKEN, OUTPUT_DIR),
  - an `FS` (which paths `os.path.isfile` reports as existing files),
  - the parsed `Args` (audio_file, --device, --model_size, --compute_type),
  - an `Oracle` giving the outcome of every external whisperx / pyannote call
to a trace of observable events (prints, makedirs, external calls) paired
with an `Except` outcome: `Except.ok ()` models a normal return from `main`
and `Except.error e` models a Python exception propagating out of `main`.

The path helpers mirror `os.path.basename`, `os.path.splitext` and
`os.path.join` (posixpath semantics, as the script targets a POSIX host).
-/

namespace WhisperCli

abbrev Err := String

def emptyStr : String := ""

/-- A single-quote character, used to rebuild the script's f-string messages. -/
def sq : String := String.singleton (Char.ofNat 39)

/-- Python truthiness of `os.getenv` results: `None` and `""` are falsy.
Models the `if not hf_token:` test. -/
def pyTruthy : Option String → Bool
  | none => false
  | some s => !(s == emptyStr)

/-- Index of the last occurrence of `c` in `l`, as `os.str.rfind` (none for -1). -/
def rfindIdx (c : Char) (l : List Char) : Option Nat :=
  List.getLast? (List.filter (fun i => decide (l.get? i = some c)) (List.range l.length))

/-- `os.path.basename` (posixpath): everything after the last slash. -/
def basename (p : String) : String :=
  (((p.toList.reverse).takeWhile (fun c => !(c == '/'))).reverse).asString

/-- `os.path.splitext` (genericpath._splitext with sep = slash, extsep = dot):
split at the last dot, unless every character of the final path component
before that dot is itself a dot. -/
def splitext (p : String) : String × String :=
  let l := p.toList
  match rfindIdx '.' l with
  | none => (p, emptyStr)
  | some d =>
    let start : Nat :=
      match rfindIdx '/' l with
      | none => 0
      | some i => i + 1
    if start ≤ d ∧ ((l.drop start).take (d - start)).any (fun c => !(c == '.')) = true then
      ((l.take d).asString, (l.drop d).asString)
    else (p, emptyStr)

def slashStr : String := String.singleton '/'

/-- `os.path.join` (posixpath) restricted to the two-argument case used here. -/
def joinPath (a b : String) : String :=
  if b.toList.head? = some '/' then b
  else if a = emptyStr ∨ a.toList.getLast? = some '/' then a ++ b
  else a ++ slashStr ++ b

/-- `os.makedirs(d, exist_ok=True)` over a directory set: never raises, and the
directory exists afterwards. -/
def makedirsExistOk (dirs : List String) (d : String) : Except Err (List String) :=
  Except.ok (if d ∈ dirs then dirs else d :: dirs)

/-- The dict returned by `model.transcribe`: only its `language` field is read. -/
structure TranscribeResult where
  language : String
  deriving DecidableEq

/-- The dict returned by `whisperx.align`: it may or may not carry a
`language` key, which line 148 of the script defaults to `"en"`. -/
structure AlignResult where
  language : Option String
  deriving DecidableEq

/-- Outcomes of the external library calls, in program order.  `Except.error`
models the call raising a Python exception. -/
structure Oracle where
  loadModelR : Except Err Unit
  loadAudioR : Except Err Unit
  transcribeR : Except Err TranscribeResult
  loadAlignR : Except Err Unit
  alignR : Except Err AlignResult
  initDiarizeR : Except Err Unit
  diarizeR : Except Err Unit
  assignR : Except Err Unit
  writeR : Except Err Unit

/-- Environment after `load_dotenv()`: `HF_TOKEN` and `OUTPUT_DIR`
(`none` = variable unset). -/
structure Config where
  hf_token : Option String
  output_dir_env : Option String

/-- Parsed command-line arguments (argparse already succeeded). -/
structure Args where
  audio_file : String
  device : String
  model_size : String
  compute_type : String

/-- The file system as seen by `os.path.isfile`. -/
structure FS where
  isFile : String → Bool

/-- Observable events of a run: prints to stdout, directory creation, and
each external library call with the arguments the script passes. -/
inductive Event where
  | print (s : String)
  | makedirs (dir : String) (existOk : Bool)
  | loadModel (size dev ct root lang : String)
  | loadAudio (path : String)
  | transcribe (batchSize : Nat)
  | loadAlignModel (lang dev : String)
  | align (returnCharAlignments : Bool)
  | initDiarize (token dev : String)
  | diarize
  | assignSpeakers
  | write (fmt dir audioFile lang : String)
  deriving DecidableEq

/-- The five pipeline stages named by the spec's ordering property. -/
inductive Stage where
  | transcribe
  | alignSeg
  | diarize
  | assignSpeakers
  | writeFile
  deriving DecidableEq

/-- Project an event onto the five spec stages (other events map to none). -/
def stageOf : Event → Option Stage
  | Event.transcribe _ => some Stage.transcribe
  | Event.align _ => some Stage.alignSeg
  | Event.diarize => some Stage.diarize
  | Event.assignSpeakers => some Stage.assignSpeakers
  | Event.write _ _ _ _ => some Stage.writeFile
  | _ => none

def Event.isCall : Event → Bool
  | Event.print _ => false
  | Event.makedirs _ _ => false
  | _ => true

def Event.isPrint : Event → Bool
  | Event.print _ => true
  | _ => false

/-- Every external call in the trace is immediately preceded by a print. -/
def callsPrecededByPrintAux : Event → List Event → Bool
  | _, [] => true
  | prev, e :: rest =>
    ((!(Event.isCall e)) || Event.isPrint prev) && callsPrecededByPrintAux e rest

def callsPrecededByPrint : List Event → Bool
  | [] => true
  | e :: rest => (!(Event.isCall e)) && callsPrecededByPrintAux e rest

-- ---------------------------------------------------------------------------
-- String constants of the script (rebuilt with `sq` for the single quotes).

def tokenErrMsg : String :=
  "Error: HF_TOKEN not set in environment. Please add HF_TOKEN to your .env file."

def fileErrMsg (f : String) : String :=
  "Error: Audio file " ++ sq ++ f ++ sq ++ " not found."

def model_dir : String := "./models"

def defaultOutputDir : String := "./output"

def enLang : String := "en"

def vttExt : String := ".vtt"

def vttFormat : String := "vtt"

def batch_size : Nat := 16

def loadingModelMsg (ms ct dev : String) : String :=
  "Loading WhisperX model " ++ sq ++ ms ++ sq ++ " (" ++ ct ++ ") on " ++ dev ++ "..."

def loadingAudioMsg (f : String) : String :=
  "Loading audio from " ++ sq ++ f ++ sq ++ "..."

def transcribingMsg : String := "Running transcription with WhisperX..."

def loadingAlignMsg : String := "Loading alignment model..."

def aligningMsg : String := "Aligning transcription segments..."

def initDiarizeMsg : String := "Initializing diarization pipeline..."

def diarizingMsg : String := "Running speaker diarization on audio..."

def assigningMsg : String := "Assigning speaker labels to words..."

def writingMsg : String := "Writing VTT file..."

def savedMsg (p : String) : String :=
  "Saved .vtt subtitles to " ++ sq ++ p ++ sq

/-- The reported output path: line 155/156 of the script,
`os.path.join(output_dir, splitext(basename(audio_file))[0] + ".vtt")`. -/
def vttPath (output_dir audio_file : String) : String :=
  joinPath output_dir ((splitext (basename audio_file)).1 ++ vttExt)

/-- Embedding of `main` (whisper_cli.py lines 13-158).  Returns the event
trace and the outcome: `Except.ok ()` for a normal return, `Except.error e`
for an exception propagating out of `main`. -/
def main (cfg : Config) (fs : FS) (args : Args) (o : Oracle) :
    List Event × Except Err Unit :=
  let output_dir := cfg.output_dir_env.getD defaultOutputDir
  if pyTruthy cfg.hf_token = false then
    ([Event.print tokenErrMsg], Except.ok ())
  else if fs.isFile args.audio_file = false then
    ([Event.print (fileErrMsg args.audio_file)], Except.ok ())
  else
    let hfTok := cfg.hf_token.getD emptyStr
    let t0 : List Event :=
      [Event.makedirs model_dir true, Event.makedirs output_dir true,
       Event.print (loadingModelMsg args.model_size args.compute_type args.device),
       Event.loadModel args.model_size args.device args.compute_type model_dir enLang]
    match o.loadModelR with
    | Except.error e => (t0, Except.error e)
    | Except.ok _ =>
      let t1 := t0 ++ [Event.print (loadingAudioMsg args.audio_file),
                       Event.loadAudio args.audio_file]
      match o.loadAudioR with
      | Except.error e => (t1, Except.error e)
      | Except.ok _ =>
        let t2 := t1 ++ [Event.print transcribingMsg, Event.transcribe batch_size]
        match o.transcribeR with
        | Except.error e => (t2, Except.error e)
        | Except.ok tr =>
          let t3 := t2 ++ [Event.print loadingAlignMsg,
                           Event.loadAlignModel tr.language args.device]
          match o.loadAlignR with
          | Except.error e => (t3, Except.error e)
          | Except.ok _ =>
            let t4 := t3 ++ [Event.print aligningMsg, Event.align false]
            match o.alignR with
            | Except.error e => (t4, Except.error e)
            | Except.ok ar =>
              let t5 := t4 ++ [Event.print initDiarizeMsg,
                               Event.initDiarize hfTok args.device]
              match o.initDiarizeR with
              | Except.error e => (t5, Except.error e)
              | Except.ok _ =>
                let t6 := t5 ++ [Event.print diarizingMsg, Event.diarize]
                match o.diarizeR with
                | Except.error e => (t6, Except.error e)
                | Except.ok _ =>
                  let t7 := t6 ++ [Event.print assigningMsg, Event.assignSpeakers]
                  match o.assignR with
                  | Except.error e => (t7, Except.error e)
                  | Except.ok _ =>
                    let finalLang := ar.language.getD enLang
                    let t8 := t7 ++ [Event.print writingMsg,
                      Event.write vttFormat output_dir args.audio_file finalLang]
                    match o.writeR with
                    | Except.error e => (t8, Except.error e)
                    | Except.ok _ =>
                      (t8 ++ [Event.print (savedMsg (vttPath output_dir args.audio_file))],
                       Except.ok ())

/-- The first external-call failure in program order, if any. -/
def firstErr (o : Oracle) : Option Err :=
  match o.loadModelR with
  | Except.error e => some e
  | Except.ok _ =>
  match o.loadAudioR with
  | Except.error e => some e
  | Except.ok _ =>
  match o.transcribeR with
  | Except.error e => some e
  | Except.ok _ =>
  match o.loadAlignR with
  | Except.error e => some e
  | Except.ok _ =>
  match o.alignR with
  | Except.error e => some e
  | Except.ok _ =>
  match o.initDiarizeR with
  | Except.error e => some e
  | Except.ok _ =>
  match o.diarizeR with
  | Except.error e => some e
  | Except.ok _ =>
  match o.assignR with
  | Except.error e => some e
  | Except.ok _ =>
  match o.writeR with
  | Except.error e => some e
  | Except.ok _ => none

/-- The full event trace of a run in which every external call succeeds. -/
def successTrace (cfg : Config) (args : Args)
    (tr : TranscribeResult) (ar : AlignResult) : List Event :=
  let output_dir := cfg.output_dir_env.getD defaultOutputDir
  [Event.makedirs model_dir true, Event.makedirs output_dir true,
   Event.print (loadingModelMsg args.model_size args.compute_type args.device),
   Event.loadModel args.model_size args.device args.compute_type model_dir enLang,
   Event.print (loadingAudioMsg args.audio_file), Event.loadAudio args.audio_file,
   Event.print transcribingMsg, Event.transcribe batch_size,
   Event.print loadingAlignMsg, Event.loadAlignModel tr.language args.device,
   Event.print aligningMsg, Event.align false,
   Event.print initDiarizeMsg,
   Event.initDiarize (cfg.hf_token.getD emptyStr) args.device,
   Event.print diarizingMsg, Event.diarize,
   Event.print assigningMsg, Event.assignSpeakers,
   Event.print writingMsg,
   Event.write vttFormat output_dir args.audio_file (ar.language.getD enLang),
   Event.print (savedMsg (vttPath output_dir args.audio_file))]

-- ---------------------------------------------------------------------------
-- Concrete values used by the witness theorems.

def tokW : String := "hf-demo-token"

def audioW : String := "/audio/meeting.mp3"

def outDirW : String := "/srv/out"

def devW : String := "cpu"

def sizeW : String := "large-v2"

def ctypeW : String := "float16"

def cudaErr : Err := "CUDA out of memory"

def cfgTokNone : Config := ⟨none, none⟩

def cfgTokEmpty : Config := ⟨some emptyStr, none⟩

def cfgOk : Config := ⟨some tokW, some outDirW⟩

def fsYes : FS := ⟨fun _ => true⟩

def fsNo : FS := ⟨fun _ => false⟩

def argsW : Args := ⟨audioW, devW, sizeW, ctypeW⟩

def trW : TranscribeResult := ⟨enLang⟩

def arW : AlignResult := ⟨none⟩

def okU : Except Err Unit := Except.ok ()

def oOk : Oracle :=
  ⟨okU, okU, Except.ok trW, okU, Except.ok arW, okU, okU, okU, okU⟩

def oFailDiarize : Oracle :=
  ⟨okU, okU, Except.ok trW, okU, Except.ok arW, okU, Except.error cudaErr, okU, okU⟩

-- ---------------------------------------------------------------------------
-- Theorems.

/-- Helper: the trace and outcome of a run in which both precondition checks
pass and every external call succeeds. -/
theorem main_success (cfg : Config) (fs : FS) (args : Args) (o : Oracle)
    (tr : TranscribeResult) (ar : AlignResult)
    (htok : pyTruthy cfg.hf_token = true)
    (hfile : fs.isFile args.audio_file = true)
    (h1 : o.loadModelR = Except.ok ()) (h2 : o.loadAudioR = Except.ok ())
    (h3 : o.transcribeR = Except.ok tr) (h4 : o.loadAlignR = Except.ok ())
    (h5 : o.alignR = Except.ok ar) (h6 : o.initDiarizeR = Except.ok ())
    (h7 : o.diarizeR = Except.ok ()) (h8 : o.assignR = Except.ok ())
    (h9 : o.writeR = Except.ok ()) :
    main cfg fs args o = (successTrace cfg args tr ar, Except.ok ()) := by
  simp [main, successTrace, htok, hfile, h1, h2, h3, h4, h5, h6, h7, h8, h9]

/-- Claim C1: when HF_TOKEN is unset, `main` prints the token error and
returns normally; the trace holds nothing else, so no directory creation,
model loading, transcription, alignment, diarization, speaker assignment or
file writing is performed. -/
theorem hf_token_unset_early_return (cfg : Config) (fs : FS) (args : Args)
    (o : Oracle) (h : cfg.hf_token = none) :
    main cfg fs args o = ([Event.print tokenErrMsg], Except.ok ()) := by
  simp [main, pyTruthy, h]

theorem hf_token_unset_early_return_w :
    cfgTokNone.hf_token = none ∧
    main cfgTokNone fsYes argsW oOk = ([Event.print tokenErrMsg], Except.ok ()) :=
  ⟨rfl, hf_token_unset_early_return cfgTokNone fsYes argsW oOk rfl⟩

/-- Claim C2: when HF_TOKEN is set (truthy) but the audio path is not an
existing file, `main` prints the file error and returns normally; the trace
holds nothing else, so no model loading, transcription, alignment,
diarization or file writing is performed. -/
theorem audio_file_missing_early_return (cfg : Config) (fs : FS) (args : Args)
    (o : Oracle) (htok : pyTruthy cfg.hf_token = true)
    (hfile : fs.isFile args.audio_file = false) :
    main cfg fs args o = ([Event.print (fileErrMsg args.audio_file)], Except.ok ()) := by
  simp [main, htok, hfile]

theorem audio_file_missing_early_return_w :
    pyTruthy cfgOk.hf_token = true ∧ fsNo.isFile argsW.audio_file = false ∧
    main cfgOk fsNo argsW oOk =
      ([Event.print (fileErrMsg argsW.audio_file)], Except.ok ()) :=
  ⟨by decide, rfl, audio_file_missing_early_return cfgOk fsNo argsW oOk (by decide) rfl⟩

/-- Claim C3: on both precondition failures `main` returns normally (outcome
`Except.ok ()`: no exception escapes, no non-zero exit status), and on the
success path every external call in the trace is immediately preceded by a
progress print. -/
theorem precondition_return_and_progress_prints (cfg : Config) (fs : FS)
    (args : Args) (o : Oracle) :
    (pyTruthy cfg.hf_token = false → (main cfg fs args o).2 = Except.ok ()) ∧
    (fs.isFile args.audio_file = false → (main cfg fs args o).2 = Except.ok ()) ∧
    (∀ tr ar, pyTruthy cfg.hf_token = true → fs.isFile args.audio_file = true →
      o.loadModelR = Except.ok () → o.loadAudioR = Except.ok () →
      o.transcribeR = Except.ok tr → o.loadAlignR = Except.ok () →
      o.alignR = Except.ok ar → o.initDiarizeR = Except.ok () →
      o.diarizeR = Except.ok () → o.assignR = Except.ok () →
      o.writeR = Except.ok () →
      callsPrecededByPrint (main cfg fs args o).1 = true) := by
  refine ⟨?_, ?_, ?_⟩
  · intro h
    simp [main, h]
  · intro h
    by_cases htok : pyTruthy cfg.hf_token = false
    · simp [main, htok]
    · simp only [Bool.not_eq_false] at htok
      simp [main, htok, h]
  · intro tr ar htok hfile h1 h2 h3 h4 h5 h6 h7 h8 h9
    simp only [main_success cfg fs args o tr ar htok hfile h1 h2 h3 h4 h5 h6 h7 h8 h9]
    rfl

theorem precondition_return_and_progress_prints_w :
    pyTruthy cfgTokNone.hf_token = false ∧
    (main cfgTokNone fsNo argsW oOk).2 = Except.ok () ∧
    callsPrecededByPrint (main cfgOk fsYes argsW oOk).1 = true :=
  ⟨rfl,
   (precondition_return_and_progress_prints cfgTokNone fsNo argsW oOk).1 rfl,
   (precondition_return_and_progress_prints cfgOk fsYes argsW oOk).2.2 trW arW
     (by decide) rfl rfl rfl rfl rfl rfl rfl rfl rfl rfl⟩

/-- Claim C4: the reported output path (the final print of a successful run)
is `os.path.join` of the output directory (the OUTPUT_DIR variable when set,
`./output` otherwise) with the input's base name, extension stripped, plus
`.vtt`. -/
theorem reported_vtt_path_deterministic (cfg : Config) (fs : FS) (args : Args)
    (o : Oracle) (tr : TranscribeResult) (ar : AlignResult)
    (htok : pyTruthy cfg.hf_token = true)
    (hfile : fs.isFile args.audio_file = true)
    (h1 : o.loadModelR = Except.ok ()) (h2 : o.loadAudioR = Except.ok ())
    (h3 : o.transcribeR = Except.ok tr) (h4 : o.loadAlignR = Except.ok ())
    (h5 : o.alignR = Except.ok ar) (h6 : o.initDiarizeR = Except.ok ())
    (h7 : o.diarizeR = Except.ok ()) (h8 : o.assignR = Except.ok ())
    (h9 : o.writeR = Except.ok ()) :
    (main cfg fs args o).1.getLast? =
      some (Event.print (savedMsg (joinPath (cfg.output_dir_env.getD defaultOutputDir)
        ((splitext (basename args.audio_file)).1 ++ vttExt)))) := by
  simp only [main_success cfg fs args o tr ar htok hfile h1 h2 h3 h4 h5 h6 h7 h8 h9]
  rfl

theorem reported_vtt_path_deterministic_w :
    pyTruthy cfgOk.hf_token = true ∧ fsYes.isFile argsW.audio_file = true ∧
    (main cfgOk fsYes argsW oOk).1.getLast? =
      some (Event.print (savedMsg (joinPath (cfgOk.output_dir_env.getD defaultOutputDir)
        ((splitext (basename argsW.audio_file)).1 ++ vttExt)))) :=
  ⟨by decide, rfl, reported_vtt_path_deterministic cfgOk fsYes argsW oOk trW arW
    (by decide) rfl rfl rfl rfl rfl rfl rfl rfl rfl rfl⟩

/-- Claim C5: in every run passing both precondition checks in which no
external call raises, the pipeline stages occur exactly in the order
transcribe, align, diarize, assign speakers, write — none skipped, repeated
or reordered, whatever the input content (the transcription and alignment
results are universally quantified). -/
theorem external_calls_fixed_order (cfg : Config) (fs : FS) (args : Args)
    (o : Oracle) (tr : TranscribeResult) (ar : AlignResult)
    (htok : pyTruthy cfg.hf_token = true)
    (hfile : fs.isFile args.audio_file = true)
    (h1 : o.loadModelR = Except.ok ()) (h2 : o.loadAudioR = Except.ok ())
    (h3 : o.transcribeR = Except.ok tr) (h4 : o.loadAlignR = Except.ok ())
    (h5 : o.alignR = Except.ok ar) (h6 : o.initDiarizeR = Except.ok ())
    (h7 : o.diarizeR = Except.ok ()) (h8 : o.assignR = Except.ok ())
    (h9 : o.writeR = Except.ok ()) :
    List.filterMap stageOf (main cfg fs args o).1 =
      [Stage.transcribe, Stage.alignSeg, Stage.diarize, Stage.assignSpeakers,
       Stage.writeFile] := by
  simp only [main_success cfg fs args o tr ar htok hfile h1 h2 h3 h4 h5 h6 h7 h8 h9]
  rfl

theorem external_calls_fixed_order_w :
    pyTruthy cfgOk.hf_token = true ∧ fsYes.isFile argsW.audio_file = true ∧
    List.filterMap stageOf (main cfgOk fsYes argsW oOk).1 =
      [Stage.transcribe, Stage.alignSeg, Stage.diarize, Stage.assignSpeakers,
       Stage.writeFile] :=
  ⟨by decide, rfl, external_calls_fixed_order cfgOk fsYes argsW oOk trW arW
    (by decide) rfl rfl rfl rfl rfl rfl rfl rfl rfl rfl⟩

/-- Claim C6: whenever both precondition checks pass (whatever the external
calls later do), the first two events create the model directory and the
output directory with `exist_ok=True`; and `makedirs` with `exist_ok=True`
never fails and leaves the directory present, in particular when it already
exists. -/
theorem directories_created_exist_ok (cfg : Config) (fs : FS) (args : Args)
    (o : Oracle) (htok : pyTruthy cfg.hf_token = true)
    (hfile : fs.isFile args.audio_file = true) :
    ((main cfg fs args o).1.take 2 =
      [Event.makedirs model_dir true,
       Event.makedirs (cfg.output_dir_env.getD defaultOutputDir) true]) ∧
    (∀ dirs d, ∃ dirs', makedirsExistOk dirs d = Except.ok dirs' ∧ d ∈ dirs') := by
  constructor
  · simp only [main, htok, hfile]
    cases o.loadModelR <;> cases o.loadAudioR <;> cases o.transcribeR <;>
      cases o.loadAlignR <;> cases o.alignR <;> cases o.initDiarizeR <;>
      cases o.diarizeR <;> cases o.assignR <;> cases o.writeR <;> simp
  · intro dirs d
    by_cases h : d ∈ dirs
    · exact ⟨dirs, by simp [makedirsExistOk, h], h⟩
    · exact ⟨d :: dirs, by simp [makedirsExistOk, h], List.mem_cons_self d dirs⟩

theorem directories_created_exist_ok_w :
    pyTruthy cfgOk.hf_token = true ∧ fsYes.isFile argsW.audio_file = true ∧
    (((main cfgOk fsYes argsW oOk).1.take 2 =
      [Event.makedirs model_dir true,
       Event.makedirs (cfgOk.output_dir_env.getD defaultOutputDir) true]) ∧
     (∀ dirs d, ∃ dirs', makedirsExistOk dirs d = Except.ok dirs' ∧ d ∈ dirs')) :=
  ⟨by decide, rfl, directories_created_exist_ok cfgOk fsYes argsW oOk (by decide) rfl⟩

/-- Claim C7: once both precondition checks pass, the outcome of `main` is
exactly the first external-call failure in program order — an error raised
by any external call propagates out of `main` unchanged, and only a run
with no external failure returns normally.  No other failure is caught. -/
theorem external_errors_propagate (cfg : Config) (fs : FS) (args : Args)
    (o : Oracle) (htok : pyTruthy cfg.hf_token = true)
    (hfile : fs.isFile args.audio_file = true) :
    (main cfg fs args o).2 =
      (match firstErr o with
       | some e => Except.error e
       | none => Except.ok ()) := by
  simp only [main, firstErr, htok, hfile]
  cases o.loadModelR <;> cases o.loadAudioR <;> cases o.transcribeR <;>
    cases o.loadAlignR <;> cases o.alignR <;> cases o.initDiarizeR <;>
    cases o.diarizeR <;> cases o.assignR <;> cases o.writeR <;> simp

theorem external_errors_propagate_w :
    pyTruthy cfgOk.hf_token = true ∧ fsYes.isFile argsW.audio_file = true ∧
    (main cfgOk fsYes argsW oFailDiarize).2 =
      (match firstErr oFailDiarize with
       | some e => Except.error e
       | none => Except.ok ()) :=
  ⟨by decide, rfl, external_errors_propagate cfgOk fsYes argsW oFailDiarize (by decide) rfl⟩

/-- Claim C8: an HF_TOKEN set to the empty string is falsy in Python, so
`main` takes exactly the same missing-token error path as an unset token. -/
theorem empty_token_treated_as_unset (cfg : Config) (fs : FS) (args : Args)
    (o : Oracle) (h : cfg.hf_token = some emptyStr) :
    main cfg fs args o = ([Event.print tokenErrMsg], Except.ok ()) := by
  simp [main, pyTruthy, h]

theorem empty_token_treated_as_unset_w :
    cfgTokEmpty.hf_token = some emptyStr ∧
    main cfgTokEmpty fsYes argsW oOk = ([Event.print tokenErrMsg], Except.ok ()) :=
  ⟨rfl, empty_token_treated_as_unset cfgTokEmpty fsYes argsW oOk rfl⟩

/-- Claim C9: the token check strictly precedes the file-existence check:
with a falsy token (unset or empty) only the token error is printed, even
when the audio file is also missing, and the run is independent of the file
system and of the external calls — the path is never examined. -/
theorem token_check_precedes_file_check (cfg : Config) (fs fs' : FS)
    (args : Args) (o o' : Oracle)
    (htok : pyTruthy cfg.hf_token = false)
    (hfile : fs.isFile args.audio_file = false) :
    main cfg fs args o = ([Event.print tokenErrMsg], Except.ok ()) ∧
    main cfg fs args o = main cfg fs' args o' := by
  constructor <;> simp [main, htok]

theorem token_check_precedes_file_check_w :
    pyTruthy cfgTokNone.hf_token = false ∧ fsNo.isFile argsW.audio_file = false ∧
    (main cfgTokNone fsNo argsW oOk = ([Event.print tokenErrMsg], Except.ok ()) ∧
     main cfgTokNone fsNo argsW oOk = main cfgTokNone fsYes argsW oFailDiarize) :=
  ⟨rfl, rfl,
   token_check_precedes_file_check cfgTokNone fsNo fsYes argsW oOk oFailDiarize rfl rfl⟩

/-- Claim C10: the Whisper model is loaded with language `"en"` whatever the
arguments; the alignment model is selected from the transcription result's
language field; and the language written with the VTT file is the aligned
result's language field defaulted to `"en"`, so it is `"en"` whenever that
field is absent. -/
theorem language_forced_english (cfg : Config) (fs : FS) (args : Args)
    (o : Oracle) (tr : TranscribeResult) (ar : AlignResult)
    (htok : pyTruthy cfg.hf_token = true)
    (hfile : fs.isFile args.audio_file = true)
    (h1 : o.loadModelR = Except.ok ()) (h2 : o.loadAudioR = Except.ok ())
    (h3 : o.transcribeR = Except.ok tr) (h4 : o.loadAlignR = Except.ok ())
    (h5 : o.alignR = Except.ok ar) (h6 : o.initDiarizeR = Except.ok ())
    (h7 : o.diarizeR = Except.ok ()) (h8 : o.assignR = Except.ok ())
    (h9 : o.writeR = Except.ok ()) :
    (Event.loadModel args.model_size args.device args.compute_type model_dir enLang
        ∈ (main cfg fs args o).1) ∧
    (Event.loadAlignModel tr.language args.device ∈ (main cfg fs args o).1) ∧
    (Event.write vttFormat (cfg.output_dir_env.getD defaultOutputDir) args.audio_file
        (ar.language.getD enLang) ∈ (main cfg fs args o).1) ∧
    (ar.language = none →
      Event.write vttFormat (cfg.output_dir_env.getD defaultOutputDir) args.audio_file
        enLang ∈ (main cfg fs args o).1) := by
  simp only [main_success cfg fs args o tr ar htok hfile h1 h2 h3 h4 h5 h6 h7 h8 h9]
  refine ⟨?_, ?_, ?_, ?_⟩
  · simp [successTrace]
  · simp [successTrace]
  · simp [successTrace]
  · intro hnone
    simp [successTrace, hnone]

theorem language_forced_english_w :
    pyTruthy cfgOk.hf_token = true ∧ arW.language = none ∧
    ((Event.loadModel argsW.model_size argsW.device argsW.compute_type model_dir enLang
        ∈ (main cfgOk fsYes argsW oOk).1) ∧
     (Event.loadAlignModel trW.language argsW.device ∈ (main cfgOk fsYes argsW oOk).1) ∧
     (Event.write vttFormat (cfgOk.output_dir_env.getD defaultOutputDir) argsW.audio_file
        (arW.language.getD enLang) ∈ (main cfgOk fsYes argsW oOk).1) ∧
     (arW.language = none →
       Event.write vttFormat (cfgOk.output_dir_env.getD defaultOutputDir) argsW.audio_file
         enLang ∈ (main cfgOk fsYes argsW oOk).1)) :=
  ⟨by decide, rfl, language_forced_english cfgOk fsYes argsW oOk trW arW (by decide) rfl
    rfl rfl rfl rfl rfl rfl rfl rfl rfl⟩

end WhisperCli
